import Mathlib

/-!
Shallow embedding of the sampling session engine of
`server/services/monitor.js` (class `MonitorService`), together with the
statistics helper of `server/services/pdfGenerator.js` (`addStatistics`).

Modelling conventions:
* JavaScript numbers are rationals (`ℚ`); `parseFloat(x.toFixed(2))` is
  `roundTo2` (round to the nearest hundredth, half up; no value used in a
  theorem below is a tie, so the tie-breaking direction is irrelevant).
  `Infinity`, `-Infinity`, `NaN` and `undefined`, which arise only inside
  `getStatistics` on empty series, are represented by the `JVal` type.
* Wall-clock timestamps are abstract naturals supplied by the caller.
* The `setInterval` handler body (lines 208-228 of monitor.js) is
  `tickBody`, driven either synchronously (`runTicks`, one entry per
  scheduler firing, `none` = the `measureResources` promise rejected) or
  by the fine-grained `asyncStep` relation that separates the scheduler
  firing a tick (`fire`) from the completion of the awaited snapshot
  (`finish`), as the real event loop does.
* `Measurement` models the `elapsed`, `cpu.usage`, `cpu.temperature` and
  `network.rxKBps`/`txKBps` fields of the measurement object built at
  lines 151-184; the memory/disk/gpu fields are built by the same
  pattern and are not referenced by any property proved here.
-/

namespace Monitor

/-- `parseFloat(x.toFixed(2))`: round to the nearest multiple of `1/100`. -/
def roundTo2 (q : ℚ) : ℚ :=
  ((round (q * 100) : ℤ) : ℚ) / 100

/-- The `config` record built by the constructor (lines 15-20). -/
structure Config where
  duration : ℚ
  interval : ℚ
deriving DecidableEq

/-- JS `v || d` with a numeric left operand: `undefined` (`none`) and `0`
are falsy and select the default `d`; every other number is kept. -/
def jsOr (v : Option ℚ) (d : ℚ) : ℚ :=
  match v with
  | none => d
  | some x => if x = 0 then d else x

/-- One point-in-time snapshot returned by the Metric Source
(`systeminformation`), restricted to the fields the engine consumes:
`networkStats[0]` as an `(rx_bytes, tx_bytes)` pair (`none` = empty
array), `currentLoad.currentLoad`, and `cpuTemperature.main`
(`none` = sensor absent). -/
structure Snapshot where
  net : Option (ℚ × ℚ)
  cpuLoad : ℚ
  cpuTempMain : Option ℚ
deriving DecidableEq

/-- The measurement object of lines 151-184, restricted to the modelled
fields. -/
structure Measurement where
  elapsed : ℕ
  cpuUsage : ℚ
  cpuTemp : Option ℚ
  netRx : ℚ
  netTx : ℚ
deriving DecidableEq

/-- The mutable fields of a `MonitorService` instance (lines 15-37),
plus `intervalActive`/`timeoutActive` for `intervalId`/`timeoutId`
being non-null. -/
structure MonitorState where
  config : Config
  measurements : List Measurement
  elapsedSeconds : ℕ
  isRunning : Bool
  startTime : Option ℕ
  endTime : Option ℕ
  lastNetworkStats : Option (ℚ × ℚ)
  intervalActive : Bool
  timeoutActive : Bool
deriving DecidableEq

/-- Observable outputs of the engine: the per-tick realtime callback
(lines 214-221), the `error` event (line 226) and the `complete` event
(line 264) carrying the session data. -/
inductive Event where
  | sample (m : Measurement) (totalElapsed : ℕ) (totalDuration : ℚ) (progress : ℚ)
  | errorEvt
  | complete (measurements : List Measurement) (startTime endTime : Option ℕ)
deriving DecidableEq

def Event.isError : Event → Bool
  | .errorEvt => true
  | _ => false

def Event.isComplete : Event → Bool
  | .complete _ _ _ => true
  | _ => false

/-- The constructor (lines 13-38): `config.duration || 300`,
`config.interval || 1`, empty measurement list, counters zeroed, not
running, no timers, no network baseline. -/
def mkMonitor (duration interval : Option ℚ) : MonitorState :=
  { config := { duration := jsOr duration 300, interval := jsOr interval 1 }
    measurements := []
    elapsedSeconds := 0
    isRunning := false
    startTime := none
    endTime := none
    lastNetworkStats := none
    intervalActive := false
    timeoutActive := false }

/-- Network speed computation of lines 121-135 (the rate calculator):
if there is a previous reading and the current snapshot has a network
entry, the rate is `(current − last) / interval / 1024` rounded to two
decimals (the source applies no clamping); otherwise both rates stay
`0`. -/
def networkSpeedOf (last : Option (ℚ × ℚ)) (net : Option (ℚ × ℚ))
    (interval : ℚ) : ℚ × ℚ :=
  match last, net with
  | some l, some c =>
      (roundTo2 ((c.1 - l.1) / interval / 1024),
       roundTo2 ((c.2 - l.2) / interval / 1024))
  | _, _ => (0, 0)

/-- `cpuTemp.main || null` (line 156): a `0` reading is falsy and is
coerced to `null`. -/
def orNull (v : Option ℚ) : Option ℚ :=
  match v with
  | none => none
  | some x => if x = 0 then none else some x

/-- The measurement object built at lines 151-184 from the current state
and one snapshot: `elapsed` is the current `elapsedSeconds`, the network
rates come from the rate computation against the previous baseline. -/
def measurementOf (s : MonitorState) (snap : Snapshot) : Measurement :=
  { elapsed := s.elapsedSeconds
    cpuUsage := roundTo2 snap.cpuLoad
    cpuTemp := orNull snap.cpuTempMain
    netRx := (networkSpeedOf s.lastNetworkStats snap.net s.config.interval).1
    netTx := (networkSpeedOf s.lastNetworkStats snap.net s.config.interval).2 }

/-- `measureResources` (lines 98-191): computes the rates against the
stored baseline, replaces the baseline with the new reading (line 135)
and returns the measurement.  A rejected Metric Source query is modelled
by the caller not invoking this at all (the `catch` at line 187 rethrows
before the baseline update). -/
def measureResources (s : MonitorState) (snap : Snapshot) :
    MonitorState × Measurement :=
  ({ s with lastNetworkStats := snap.net }, measurementOf s snap)

/-- The `setInterval` handler body (lines 208-228).  Success: append the
measurement, fire the realtime callback with progress
`(elapsedSeconds / duration) * 100` rounded to two decimals, then
increment `elapsedSeconds`.  Failure (`none`): the `catch` block runs —
it only emits an `error` event; measurements and the elapsed counter are
untouched. -/
def tickBody (s : MonitorState) (o : Option Snapshot) :
    MonitorState × List Event :=
  match o with
  | none => (s, [Event.errorEvt])
  | some snap =>
      let r := measureResources s snap
      let s1 := { r.1 with measurements := r.1.measurements ++ [r.2] }
      let ev := Event.sample r.2 s1.elapsedSeconds s1.config.duration
        (roundTo2 (((s1.elapsedSeconds : ℚ) / s1.config.duration) * 100))
      ({ s1 with elapsedSeconds := s1.elapsedSeconds + 1 }, [ev])

/-- A sequence of completed scheduler firings, each carrying the outcome
of its Metric Source query (`none` = the query rejected). -/
def runTicks (s : MonitorState) (outs : List (Option Snapshot)) :
    MonitorState × List Event :=
  match outs with
  | [] => (s, [])
  | o :: rest =>
      let r := tickBody s o
      let r2 := runTicks r.1 rest
      (r2.1, r.2 ++ r2.2)

/-- `start(callback)` (lines 196-234): if already running, throw (first
component `true`) before touching any field; otherwise set `isRunning`,
record `startTime`, reset the elapsed counter and arm both timers. -/
def start (s : MonitorState) (t : ℕ) : Bool × MonitorState :=
  if s.isRunning then (true, s)
  else
    (false,
     { s with isRunning := true
              startTime := some t
              elapsedSeconds := 0
              intervalActive := true
              timeoutActive := true })

/-- Result of one `stop()` call: the state afterwards, the events it
emitted, whether a persistence write was attempted, and whether the
returned promise rejected (the persistence error propagating). -/
structure StopResult where
  state : MonitorState
  events : List Event
  persistAttempted : Bool
  threw : Bool
deriving DecidableEq

/-- `stop()` (lines 239-265): early-return when not running; otherwise
clear `isRunning`, set `endTime`, clear both timers, then
`await this.saveData()` — on write failure `saveData` rethrows
(lines 276-279), so the error propagates out of `stop` and the
`complete` emit at line 264 is never reached; on success the `complete`
event fires with the session data. -/
def stop (s : MonitorState) (t : ℕ) (persistOk : Bool) : StopResult :=
  if s.isRunning then
    let s1 :=
      { s with isRunning := false
               endTime := some t
               intervalActive := false
               timeoutActive := false }
    if persistOk then
      { state := s1
        events := [Event.complete s1.measurements s1.startTime s1.endTime]
        persistAttempted := true
        threw := false }
    else
      { state := s1, events := [], persistAttempted := true, threw := true }
  else
    { state := s, events := [], persistAttempted := false, threw := false }

/-- A whole session: construct, `start`, run the scheduled ticks, then
the deadline (or a caller) invokes `stop`.  Returns the stop result and
the full event trace. -/
def runSession (duration interval : Option ℚ) (t0 : ℕ)
    (outs : List (Option Snapshot)) (tEnd : ℕ) (persistOk : Bool) :
    StopResult × List Event :=
  let s1 := (start (mkMonitor duration interval) t0).2
  let r := runTicks s1 outs
  let fin := stop r.1 tEnd persistOk
  (fin, r.2 ++ fin.events)

/-- A JavaScript number as produced by `getStatistics` on possibly-empty
series: `Math.min()` is `Infinity`, `Math.max()` is `-Infinity`, `0/0`
is `NaN`, and an out-of-range array read is `undefined` (modelled as
`none` at the use site). -/
inductive JVal where
  | num (q : ℚ)
  | posInf
  | negInf
  | nan
deriving DecidableEq

/-- `values.sort((a, b) => a - b)`: ascending numeric sort. -/
def jsSortAsc (l : List ℚ) : List ℚ :=
  List.insertionSort (· ≤ ·) l

/-- `Math.min(...values)`: `Infinity` when the list is empty. -/
def listMin : List ℚ → JVal
  | [] => .posInf
  | x :: xs => .num (xs.foldl min x)

/-- `Math.max(...values)`: `-Infinity` when the list is empty. -/
def listMax : List ℚ → JVal
  | [] => .negInf
  | x :: xs => .num (xs.foldl max x)

/-- `values.reduce((a, b) => a + b, 0) / values.length`: `0/0 = NaN`
when the list is empty. -/
def listAvg : List ℚ → JVal
  | [] => .nan
  | x :: xs => .num ((x :: xs).sum / (x :: xs).length)

/-- The aggregate record returned by `calculateStats` in
`MonitorService.getStatistics` (lines 301-309): no empty-list guard, so
an empty series yields `Infinity`/`-Infinity`/`NaN` and an `undefined`
median (`sorted[0]` of an empty array). -/
structure MStats where
  min : JVal
  max : JVal
  avg : JVal
  median : Option ℚ
deriving DecidableEq

/-- `calculateStats` of `MonitorService.getStatistics` (lines 301-309).
The source sorts `values` in place and then takes `Math.min(...values)`
etc.; sorting does not change the multiset, so min/max/avg are computed
on the original list here. -/
def monitorCalculateStats (values : List ℚ) : MStats :=
  { min := listMin values
    max := listMax values
    avg := listAvg values
    median := (jsSortAsc values)[values.length / 2]? }

/-- The aggregate record returned by `calculateStats` in
`PDFGenerator.addStatistics` (lines 177-188): plain numbers, with the
explicit zero aggregate for an empty filtered series. -/
structure QStats where
  min : ℚ
  max : ℚ
  avg : ℚ
  median : ℚ
deriving DecidableEq

/-- `calculateStats` of `PDFGenerator.addStatistics` (lines 177-188):
filter out `null` entries, return the zero aggregate when nothing is
left, otherwise min/max/mean/median of the filtered values.  (The
source's `!isNaN(v)` conjunct has no counterpart: `NaN` does not arise
in the rational model.) -/
def pdfCalculateStats (values : List (Option ℚ)) : QStats :=
  match values.filterMap id with
  | [] => { min := 0, max := 0, avg := 0, median := 0 }
  | x :: xs =>
      { min := xs.foldl min x
        max := xs.foldl max x
        avg := (x :: xs).sum / (x :: xs).length
        median := (jsSortAsc (x :: xs)).getD ((x :: xs).length / 2) 0 }

/-- The statistics record of `getStatistics` (lines 311-331), restricted
to the modelled series; the memory/disk entries are built by the same
`calculateStats` with no filtering, exactly like the network entries
here.  Only the `cpu.temperature` series is `filter`-ed (line 315). -/
structure Statistics where
  cpuUsage : MStats
  cpuTemperature : MStats
  networkRx : MStats
  networkTx : MStats
deriving DecidableEq

/-- `getStatistics` (lines 294-332): `null` for an empty measurement
list, otherwise per-series aggregates; the temperature series drops
`null` entries first. -/
def getStatistics (s : MonitorState) : Option Statistics :=
  if s.measurements.isEmpty then none
  else
    some
      { cpuUsage := monitorCalculateStats (s.measurements.map Measurement.cpuUsage)
        cpuTemperature :=
          monitorCalculateStats
            ((s.measurements.map Measurement.cpuTemp).filterMap id)
        networkRx := monitorCalculateStats (s.measurements.map Measurement.netRx)
        networkTx := monitorCalculateStats (s.measurements.map Measurement.netTx) }

/-- Fine-grained view separating a tick's two phases: `pending` counts
handler invocations whose awaited snapshot has not yet settled. -/
structure AsyncState where
  core : MonitorState
  pending : ℕ
deriving DecidableEq

inductive AsyncAct where
  | fire
  | finish (o : Option Snapshot)
  | stopCall (t : ℕ) (persistOk : Bool)

/-- One event-loop step.  `fire`: the interval timer (if still armed)
invokes the handler, which immediately awaits its snapshot.  `finish o`:
a pending handler's awaited promise settles and the rest of the body
(`tickBody`) runs — the source performs no `isRunning` check there, so
the body runs the same way whether or not the session was stopped in
between.  `stopCall`: `stop()` runs; it clears the timers but does
nothing to already-pending handlers. -/
def asyncStep (es : AsyncState) (a : AsyncAct) : AsyncState × List Event :=
  match a with
  | .fire =>
      if es.core.intervalActive then
        ({ es with pending := es.pending + 1 }, [])
      else (es, [])
  | .finish o =>
      match es.pending with
      | 0 => (es, [])
      | p + 1 =>
          let r := tickBody es.core o
          ({ core := r.1, pending := p }, r.2)
  | .stopCall t ok =>
      let r := stop es.core t ok
      ({ core := r.state, pending := es.pending }, r.events)

/-! Concrete fixtures used by witnesses and counterexamples. -/

/-- A snapshot whose network entry is present and whose CPU temperature
sensor is absent. -/
def snapEx : Snapshot :=
  { net := some (0, 0), cpuLoad := 10, cpuTempMain := none }

/-- A measurement as produced from `snapEx` on a fresh session's first
tick. -/
def mEx : Measurement :=
  { elapsed := 0, cpuUsage := 10, cpuTemp := none, netRx := 0, netTx := 0 }

/-- A concrete running session holding one measurement. -/
def sRunEx : MonitorState :=
  { config := { duration := 3, interval := 1 }
    measurements := [mEx]
    elapsedSeconds := 1
    isRunning := true
    startTime := some 0
    endTime := none
    lastNetworkStats := some (100, 200)
    intervalActive := true
    timeoutActive := true }

/-- A freshly started session with no pending handler. -/
def esRun : AsyncState :=
  { core := (start (mkMonitor (some 10) (some 1)) 0).2, pending := 0 }

/-! Helper lemmas about the tick handler and the tick-driving fold. -/

theorem tickBody_none (s : MonitorState) :
    tickBody s none = (s, [Event.errorEvt]) := rfl

theorem measurements_tickBody_some (s : MonitorState) (snap : Snapshot) :
    (tickBody s (some snap)).1.measurements
      = s.measurements ++ [measurementOf s snap] := rfl

theorem elapsedSeconds_tickBody_some (s : MonitorState) (snap : Snapshot) :
    (tickBody s (some snap)).1.elapsedSeconds = s.elapsedSeconds + 1 := rfl

theorem elapsed_measurementOf (s : MonitorState) (snap : Snapshot) :
    (measurementOf s snap).elapsed = s.elapsedSeconds := rfl

theorem isRunning_tickBody (s : MonitorState) (o : Option Snapshot) :
    (tickBody s o).1.isRunning = s.isRunning := by
  cases o <;> rfl

theorem countError_tickBody (s : MonitorState) (o : Option Snapshot) :
    (tickBody s o).2.countP Event.isError = if o.isSome then 0 else 1 := by
  cases o <;> rfl

theorem countComplete_tickBody (s : MonitorState) (o : Option Snapshot) :
    (tickBody s o).2.countP Event.isComplete = 0 := by
  cases o <;> rfl

theorem isRunning_runTicks (outs : List (Option Snapshot)) :
    ∀ s : MonitorState, (runTicks s outs).1.isRunning = s.isRunning := by
  induction outs with
  | nil => intro s; rfl
  | cons o rest ih =>
      intro s
      show (runTicks (tickBody s o).1 rest).1.isRunning = s.isRunning
      rw [ih, isRunning_tickBody]

theorem map_elapsed_runTicks (outs : List (Option Snapshot)) :
    ∀ s : MonitorState,
      ((runTicks s outs).1.measurements.map Measurement.elapsed)
        = s.measurements.map Measurement.elapsed
          ++ List.range' s.elapsedSeconds (outs.countP (fun o => o.isSome)) := by
  induction outs with
  | nil => intro s; simp [runTicks]
  | cons o rest ih =>
      intro s
      cases o with
      | none =>
          show ((runTicks (tickBody s none).1 rest).1.measurements.map Measurement.elapsed) = _
          rw [tickBody_none, ih]
          simp [List.countP_cons]
      | some snap =>
          show ((runTicks (tickBody s (some snap)).1 rest).1.measurements.map
              Measurement.elapsed) = _
          rw [ih, measurements_tickBody_some, elapsedSeconds_tickBody_some]
          simp [List.countP_cons, List.range'_succ, elapsed_measurementOf]

theorem length_measurements_runTicks (outs : List (Option Snapshot))
    (s : MonitorState) :
    (runTicks s outs).1.measurements.length
      = s.measurements.length + outs.countP (fun o => o.isSome) := by
  have h := congrArg List.length (map_elapsed_runTicks outs s)
  simpa using h

theorem countError_runTicks (outs : List (Option Snapshot)) :
    ∀ s : MonitorState,
      (runTicks s outs).2.countP Event.isError
        = outs.countP (fun o => o.isNone) := by
  induction outs with
  | nil => intro s; rfl
  | cons o rest ih =>
      intro s
      show ((tickBody s o).2 ++ (runTicks (tickBody s o).1 rest).2).countP
          Event.isError = _
      rw [List.countP_append, ih, countError_tickBody]
      cases o <;> (simp [List.countP_cons]; try omega)

theorem countComplete_runTicks (outs : List (Option Snapshot)) :
    ∀ s : MonitorState,
      (runTicks s outs).2.countP Event.isComplete = 0 := by
  induction outs with
  | nil => intro s; rfl
  | cons o rest ih =>
      intro s
      show ((tickBody s o).2 ++ (runTicks (tickBody s o).1 rest).2).countP
          Event.isComplete = 0
      rw [List.countP_append, ih, countComplete_tickBody]

theorem countP_some_add_none (outs : List (Option Snapshot)) :
    outs.countP (fun o => o.isSome) + outs.countP (fun o => o.isNone)
      = outs.length := by
  induction outs with
  | nil => rfl
  | cons o rest ih => cases o <;> (simp [List.countP_cons]; omega)

theorem stop_not_running (s : MonitorState) (t : ℕ) (ok : Bool)
    (h : s.isRunning = false) :
    stop s t ok
      = { state := s, events := [], persistAttempted := false, threw := false } := by
  simp [stop, h]

theorem stop_running_persistOk (s : MonitorState) (t : ℕ)
    (h : s.isRunning = true) :
    stop s t true
      = { state := { s with isRunning := false, endTime := some t,
                            intervalActive := false, timeoutActive := false }
          events := [Event.complete s.measurements s.startTime (some t)]
          persistAttempted := true
          threw := false } := by
  simp [stop, h]

theorem isRunning_stop_state (s : MonitorState) (t : ℕ) (ok : Bool) :
    (stop s t ok).state.isRunning = false := by
  cases hb : s.isRunning
  · simp [stop, hb]
  · cases ok <;> simp [stop, hb]

/-! Claim theorems. -/

/-- C1: if the Metric Source query rejects on exactly one of the `N`
scheduled ticks, the finished session holds at most `N − 1`
measurements, exactly one `error` event is emitted over the whole run,
the failure does not stop the session (it is still running after all
ticks), and the deadline's `stop` still brings it to the terminal
completed state: not running, `endTime` set, one `complete` event. -/
theorem C1_single_failure_tick (d i : Option ℚ) (t0 tEnd : ℕ)
    (outs : List (Option Snapshot))
    (hone : outs.countP (fun o => o.isNone) = 1) :
    (runSession d i t0 outs tEnd true).1.state.measurements.length ≤ outs.length - 1
    ∧ (runSession d i t0 outs tEnd true).2.countP Event.isError = 1
    ∧ (runTicks (start (mkMonitor d i) t0).2 outs).1.isRunning = true
    ∧ (runSession d i t0 outs tEnd true).1.state.isRunning = false
    ∧ (runSession d i t0 outs tEnd true).1.state.endTime = some tEnd
    ∧ (runSession d i t0 outs tEnd true).2.countP Event.isComplete = 1 := by
  have hrun : (runTicks (start (mkMonitor d i) t0).2 outs).1.isRunning = true := by
    rw [isRunning_runTicks]; rfl
  have hlen : (runTicks (start (mkMonitor d i) t0).2 outs).1.measurements.length
      = outs.countP (fun o => o.isSome) := by
    simpa [start, mkMonitor] using
      length_measurements_runTicks outs (start (mkMonitor d i) t0).2
  have hsum := countP_some_add_none outs
  have hstop := stop_running_persistOk
    (runTicks (start (mkMonitor d i) t0).2 outs).1 tEnd hrun
  refine ⟨?_, ?_, hrun, ?_, ?_, ?_⟩
  · show (stop (runTicks (start (mkMonitor d i) t0).2 outs).1 tEnd true).state.measurements.length
        ≤ outs.length - 1
    rw [hstop]
    show (runTicks (start (mkMonitor d i) t0).2 outs).1.measurements.length
        ≤ outs.length - 1
    omega
  · show ((runTicks (start (mkMonitor d i) t0).2 outs).2
        ++ (stop (runTicks (start (mkMonitor d i) t0).2 outs).1 tEnd true).events).countP
          Event.isError = 1
    rw [List.countP_append, countError_runTicks, hstop, hone]
    simp [Event.isError]
  · show (stop (runTicks (start (mkMonitor d i) t0).2 outs).1 tEnd true).state.isRunning
        = false
    rw [hstop]
  · show (stop (runTicks (start (mkMonitor d i) t0).2 outs).1 tEnd true).state.endTime
        = some tEnd
    rw [hstop]
  · show ((runTicks (start (mkMonitor d i) t0).2 outs).2
        ++ (stop (runTicks (start (mkMonitor d i) t0).2 outs).1 tEnd true).events).countP
          Event.isComplete = 1
    rw [List.countP_append, countComplete_runTicks, hstop]
    simp [Event.isComplete]

/-- C1 witness: a three-tick session whose middle tick fails yields two
measurements, one `error` event, and still completes. -/
theorem C1_single_failure_tick_witness :
    ([some snapEx, none, some snapEx] : List (Option Snapshot)).countP
        (fun o => o.isNone) = 1
    ∧ ((runSession (some 3) (some 1) 0 [some snapEx, none, some snapEx] 3
          true).1.state.measurements.length
        ≤ ([some snapEx, none, some snapEx] : List (Option Snapshot)).length - 1
      ∧ (runSession (some 3) (some 1) 0 [some snapEx, none, some snapEx] 3
          true).2.countP Event.isError = 1
      ∧ (runTicks (start (mkMonitor (some 3) (some 1)) 0).2
          [some snapEx, none, some snapEx]).1.isRunning = true
      ∧ (runSession (some 3) (some 1) 0 [some snapEx, none, some snapEx] 3
          true).1.state.isRunning = false
      ∧ (runSession (some 3) (some 1) 0 [some snapEx, none, some snapEx] 3
          true).1.state.endTime = some 3
      ∧ (runSession (some 3) (some 1) 0 [some snapEx, none, some snapEx] 3
          true).2.countP Event.isComplete = 1) :=
  ⟨by decide,
   C1_single_failure_tick (some 3) (some 1) 0 3 [some snapEx, none, some snapEx]
     (by decide)⟩

/-- C2: evaluation at the failing input.  With `duration = 6`,
`interval = 2` and two successful ticks, the recorded `elapsed` values
are `[0, 1]` — `elapsedSeconds` advances by `1` per successful tick,
not by one interval — and `1` is not a multiple of the interval `2`,
contradicting the claim that every `elapsed` value is a multiple of the
configured interval. -/
theorem C2_elapsed_eval :
    ((runSession (some 6) (some 2) 0 [some snapEx, some snapEx] 6
        true).1.state.measurements.map Measurement.elapsed) = [0, 1]
    ∧ ¬ ((2 : ℕ) ∣ 1) :=
  ⟨rfl, by decide⟩

/-- C10: a tick whose Metric Source query rejects leaves the state
exactly as it was — measurements and the `elapsedSeconds` counter
included — and emits only the `error` event; consequently, over any run
from a fresh start, the recorded `elapsed` values are the consecutive
integers `0, 1, 2, …` counting successful ticks, with no gap marking a
failure. -/
theorem C10_failed_tick_frame (s : MonitorState) (d i : Option ℚ) (t0 : ℕ)
    (outs : List (Option Snapshot)) :
    tickBody s none = (s, [Event.errorEvt])
    ∧ ((runTicks (start (mkMonitor d i) t0).2 outs).1.measurements.map
        Measurement.elapsed)
      = List.range (outs.countP (fun o => o.isSome)) := by
  refine ⟨rfl, ?_⟩
  rw [map_elapsed_runTicks]
  simp [start, mkMonitor, List.range_eq_range']

/-- C3 counterexample: on a concrete running session, a failing
persistence write makes `stop` propagate the error without emitting any
event at all — the `complete` event does not fire, refuting the claim
that it still fires on persistence failure. -/
theorem C3_counterexample :
    (stop sRunEx 7 false).events = []
    ∧ (stop sRunEx 7 false).threw = true
    ∧ (stop sRunEx 7 false).state.endTime = some 7 :=
  ⟨rfl, rfl, rfl⟩

/-- C3 amended: if the persistence write fails, the completed transition
(`isRunning := false`, `endTime` set, both timers cleared) is not
rolled back and the measurement sequence is untouched, but the
`complete` event does NOT fire — the persistence error propagates out
of `stop()` to its caller instead of being surfaced alongside a
completion event. -/
theorem C3_amended (s : MonitorState) (t : ℕ) (h : s.isRunning = true) :
    (stop s t false).events = []
    ∧ (stop s t false).threw = true
    ∧ (stop s t false).persistAttempted = true
    ∧ (stop s t false).state.isRunning = false
    ∧ (stop s t false).state.endTime = some t
    ∧ (stop s t false).state.measurements = s.measurements
    ∧ (stop s t false).state.intervalActive = false
    ∧ (stop s t false).state.timeoutActive = false := by
  simp [stop, h]

/-- C3 witness: the amended behaviour at a concrete running session. -/
theorem C3_amended_witness :
    sRunEx.isRunning = true
    ∧ ((stop sRunEx 9 false).events = []
      ∧ (stop sRunEx 9 false).threw = true
      ∧ (stop sRunEx 9 false).persistAttempted = true
      ∧ (stop sRunEx 9 false).state.isRunning = false
      ∧ (stop sRunEx 9 false).state.endTime = some 9
      ∧ (stop sRunEx 9 false).state.measurements = sRunEx.measurements
      ∧ (stop sRunEx 9 false).state.intervalActive = false
      ∧ (stop sRunEx 9 false).state.timeoutActive = false) :=
  ⟨rfl, C3_amended sRunEx 9 rfl⟩

/-- C4 counterexample: begin a tick (`fire`), run `stop()` — reaching
the terminal state with `endTime` set and an empty measurement
sequence — then let the in-flight tick's awaited snapshot arrive: the
handler appends its measurement anyway, mutating the sequence after the
terminal state and refuting the claim that such a tick is discarded. -/
theorem C4_counterexample :
    (asyncStep (asyncStep esRun .fire).1 (.stopCall 5 true)).1.core.endTime = some 5
    ∧ (asyncStep (asyncStep esRun .fire).1 (.stopCall 5 true)).1.core.measurements = []
    ∧ (asyncStep (asyncStep (asyncStep esRun .fire).1 (.stopCall 5 true)).1
        (.finish (some snapEx))).1.core.measurements.length = 1 :=
  ⟨rfl, rfl, rfl⟩

/-- C4 amended: an in-flight tick that completes after `stop()` has
finalized the session is NOT discarded — the handler body performs no
running-state check after its awaited snapshot settles, so it appends
its measurement even in the terminal state; only ticks that have not
yet fired are prevented, because the interval timer is cleared. -/
theorem C4_amended (es : AsyncState) (snap : Snapshot) (t : ℕ)
    (hp : 0 < es.pending) (_hrun : es.core.isRunning = false)
    (_hend : es.core.endTime = some t) :
    (asyncStep es (.finish (some snap))).1.core.measurements
      = es.core.measurements ++ [measurementOf es.core snap]
    ∧ (es.core.intervalActive = false → asyncStep es .fire = (es, [])) := by
  constructor
  · obtain ⟨p, hp'⟩ : ∃ p, es.pending = p + 1 := ⟨es.pending - 1, by omega⟩
    simp [asyncStep, hp', measurements_tickBody_some]
  · intro hi
    simp [asyncStep, hi]

/-- C4 witness: the amended behaviour at the concrete post-`stop` state
with one pending handler. -/
theorem C4_amended_witness :
    0 < (asyncStep (asyncStep esRun .fire).1 (.stopCall 5 true)).1.pending
    ∧ (asyncStep (asyncStep esRun .fire).1 (.stopCall 5 true)).1.core.isRunning = false
    ∧ (asyncStep (asyncStep esRun .fire).1 (.stopCall 5 true)).1.core.endTime = some 5
    ∧ ((asyncStep (asyncStep (asyncStep esRun .fire).1 (.stopCall 5 true)).1
          (.finish (some snapEx))).1.core.measurements
        = (asyncStep (asyncStep esRun .fire).1 (.stopCall 5 true)).1.core.measurements
          ++ [measurementOf
                (asyncStep (asyncStep esRun .fire).1 (.stopCall 5 true)).1.core snapEx]
      ∧ ((asyncStep (asyncStep esRun .fire).1 (.stopCall 5 true)).1.core.intervalActive
            = false →
          asyncStep (asyncStep (asyncStep esRun .fire).1 (.stopCall 5 true)).1 .fire
            = ((asyncStep (asyncStep esRun .fire).1 (.stopCall 5 true)).1, []))) :=
  ⟨by decide, rfl, rfl,
   C4_amended (asyncStep (asyncStep esRun .fire).1 (.stopCall 5 true)).1 snapEx 5
     (by decide) rfl rfl⟩

/-- C5: calling `start` while a session is running throws the conflict
error before any mutation: the throw flag is set and the state is
returned exactly as it was, so the measurement count and every other
field are unchanged by the rejected call. -/
theorem C5_start_conflict (s : MonitorState) (t : ℕ) (h : s.isRunning = true) :
    start s t = (true, s)
    ∧ (start s t).2.measurements.length = s.measurements.length := by
  constructor <;> simp [start, h]

/-- C5 witness: the conflict rejection at a concrete running session. -/
theorem C5_start_conflict_witness :
    sRunEx.isRunning = true
    ∧ (start sRunEx 4 = (true, sRunEx)
      ∧ (start sRunEx 4).2.measurements.length = sRunEx.measurements.length) :=
  ⟨rfl, C5_start_conflict sRunEx 4 rfl⟩

/-- C6 counterexample: the spec's own example — the network counter
dropping from `3000` to `1000` over a 1-second interval — produces the
negative rate `−1.95` KB/s: the rate computation applies no clamping,
so a negative delta is reported as negative throughput, refuting both
the clamp-to-zero claim and the claim that the rate is never
negative. -/
theorem C6_counterexample :
    (networkSpeedOf (some (3000, 3000)) (some (1000, 1000)) 1).1 = -(39 / 20)
    ∧ (networkSpeedOf (some (3000, 3000)) (some (1000, 1000)) 1).1 < 0 := by
  have h : (networkSpeedOf (some (3000, 3000)) (some (1000, 1000)) 1).1 = -(39 / 20) := by
    show ((round ((((1000 : ℚ) - 3000) / 1 / 1024) * 100) : ℤ) : ℚ) / 100 = -(39 / 20)
    rw [round_eq]
    norm_num
  refine ⟨h, ?_⟩
  rw [h]
  norm_num

/-- C6 amended: the first invocation (no stored baseline), and any tick
whose snapshot has no network entry, return rate `0`; on subsequent
invocations the rate is the signed delta over the configured interval
with NO clamping, so whenever the raw value lies strictly below half
the rounding granularity (`−1/200`) the returned rate is strictly
negative — negative throughput is reported, not clamped to zero. -/
theorem C6_amended (l c : ℚ × ℚ) (i : ℚ) (net : Option (ℚ × ℚ))
    (h : (c.1 - l.1) / i / 1024 < -(1 / 200)) :
    networkSpeedOf none net i = (0, 0)
    ∧ (networkSpeedOf (some l) (some c) i).1 < 0 := by
  constructor
  · cases net <;> rfl
  · show roundTo2 ((c.1 - l.1) / i / 1024) < 0
    have h100 : (c.1 - l.1) / i / 1024 * 100 + 1 / 2 < 0 := by
      have h2 := mul_lt_mul_of_pos_right h (by norm_num : (0 : ℚ) < 100)
      linarith
    have hfl : round ((c.1 - l.1) / i / 1024 * 100) < 0 := by
      rw [round_eq]
      refine Int.floor_lt.mpr ?_
      push_cast
      linarith
    show ((round ((c.1 - l.1) / i / 1024 * 100) : ℤ) : ℚ) / 100 < 0
    apply div_neg_of_neg_of_pos
    · exact_mod_cast hfl
    · norm_num

/-- C6 witness: the amended statement at the spec's counter-decrease
example. -/
theorem C6_amended_witness :
    (((1000, 1000) : ℚ × ℚ).1 - ((3000, 3000) : ℚ × ℚ).1) / 1 / 1024 < -(1 / 200)
    ∧ (networkSpeedOf none (some (1000, 1000)) 1 = (0, 0)
      ∧ (networkSpeedOf (some (3000, 3000)) (some (1000, 1000)) 1).1 < 0) :=
  ⟨by norm_num,
   C6_amended (3000, 3000) (1000, 1000) 1 (some (1000, 1000)) (by norm_num)⟩

/-- C7 counterexample: a start request with non-positive duration is not
rejected: a `0` duration is silently replaced by the default `300` by
the constructor's `||` fallback and `start` then succeeds — no throw,
and the engine transitions to `running` instead of staying `idle`;
a negative duration `−5` is accepted into the configuration
unchanged. -/
theorem C7_counterexample :
    (mkMonitor (some 0) (some 1)).config.duration = 300
    ∧ (start (mkMonitor (some 0) (some 1)) 0).1 = false
    ∧ (start (mkMonitor (some 0) (some 1)) 0).2.isRunning = true
    ∧ (mkMonitor (some (-5)) (some 1)).config.duration = -5 := by
  refine ⟨by decide, rfl, rfl, by decide⟩

/-- C7 amended: no configuration validation exists.  `start` never
throws a configuration error: from the `idle` state it succeeds and
transitions to `running` for every configuration whatsoever; the
constructor's only treatment of the configuration is the JS `||`
fallback, which replaces an absent or zero (falsy) `duration`/`interval`
by the defaults `300`/`1` and accepts every other value — negative ones
included — unchanged. -/
theorem C7_amended (d i : Option ℚ) (t : ℕ) (q : ℚ) (hq : q ≠ 0) :
    (start (mkMonitor d i) t).1 = false
    ∧ (start (mkMonitor d i) t).2.isRunning = true
    ∧ (mkMonitor (some 0) i).config.duration = 300
    ∧ (mkMonitor none i).config.duration = 300
    ∧ (mkMonitor (some q) i).config.duration = q
    ∧ (mkMonitor d (some 0)).config.interval = 1
    ∧ (mkMonitor d none).config.interval = 1
    ∧ (mkMonitor d (some q)).config.interval = q := by
  refine ⟨rfl, rfl, by simp [mkMonitor, jsOr], rfl, by simp [mkMonitor, jsOr, hq],
    by simp [mkMonitor, jsOr], rfl, by simp [mkMonitor, jsOr, hq]⟩

/-- C7 witness: the amended statement at the configuration
`duration = interval = −5`. -/
theorem C7_amended_witness :
    (-5 : ℚ) ≠ 0
    ∧ ((start (mkMonitor (some (-5)) (some (-5))) 0).1 = false
      ∧ (start (mkMonitor (some (-5)) (some (-5))) 0).2.isRunning = true
      ∧ (mkMonitor (some 0) (some (-5))).config.duration = 300
      ∧ (mkMonitor none (some (-5))).config.duration = 300
      ∧ (mkMonitor (some (-5)) (some (-5))).config.duration = -5
      ∧ (mkMonitor (some (-5)) (some 0)).config.interval = 1
      ∧ (mkMonitor (some (-5)) none).config.interval = 1
      ∧ (mkMonitor (some (-5)) (some (-5))).config.interval = -5) :=
  ⟨by norm_num, C7_amended (some (-5)) (some (-5)) 0 (-5) (by norm_num)⟩

/-- C8 counterexample: a session with one measurement whose CPU
temperature sensor was absent — `MonitorService.getStatistics` applies
no empty-series guard, so the temperature aggregate is
`Infinity`/`-Infinity`/`NaN` with an `undefined` median, not the
zero-valued aggregate the claim requires of the statistics
computation. -/
theorem C8_counterexample :
    (getStatistics sRunEx).map Statistics.cpuTemperature
      = some { min := JVal.posInf, max := JVal.negInf, avg := JVal.nan, median := none }
    ∧ JVal.posInf ≠ JVal.num 0 :=
  ⟨rfl, by decide⟩

/-- C8 amended: only `PDFGenerator.addStatistics`'s `calculateStats`
reports the neutral zero-valued aggregate for a series that is empty
after null-filtering; `MonitorService.getStatistics` has no such guard
and reports `min = Infinity`, `max = -Infinity`, `avg = NaN` and an
`undefined` median for that series instead. -/
theorem C8_amended (values : List (Option ℚ)) (s : MonitorState)
    (hv : values.filterMap id = [])
    (hne : s.measurements.isEmpty = false)
    (htemp : (s.measurements.map Measurement.cpuTemp).filterMap id = []) :
    pdfCalculateStats values = { min := 0, max := 0, avg := 0, median := 0 }
    ∧ (getStatistics s).map Statistics.cpuTemperature
      = some { min := JVal.posInf, max := JVal.negInf, avg := JVal.nan,
               median := none } := by
  constructor
  · unfold pdfCalculateStats
    rw [hv]
  · have hstats : getStatistics s = some
        { cpuUsage := monitorCalculateStats (s.measurements.map Measurement.cpuUsage)
          cpuTemperature :=
            monitorCalculateStats
              ((s.measurements.map Measurement.cpuTemp).filterMap id)
          networkRx := monitorCalculateStats (s.measurements.map Measurement.netRx)
          networkTx := monitorCalculateStats (s.measurements.map Measurement.netTx) } := by
      unfold getStatistics
      rw [hne]
      rfl
    rw [hstats, htemp]
    rfl

/-- C8 witness: the amended statement at an all-`null` series and the
concrete one-measurement session without a temperature sensor. -/
theorem C8_amended_witness :
    ([none, none] : List (Option ℚ)).filterMap id = []
    ∧ sRunEx.measurements.isEmpty = false
    ∧ (sRunEx.measurements.map Measurement.cpuTemp).filterMap id = []
    ∧ (pdfCalculateStats [none, none] = { min := 0, max := 0, avg := 0, median := 0 }
      ∧ (getStatistics sRunEx).map Statistics.cpuTemperature
        = some { min := JVal.posInf, max := JVal.negInf, avg := JVal.nan,
                 median := none }) :=
  ⟨rfl, rfl, rfl, C8_amended [none, none] sRunEx rfl rfl rfl⟩

/-- C9: `stop()` is idempotent.  After any `stop` call the session is no
longer running, so a second call — like any call from `idle` or a
terminal state — returns at the guard: the state (hence `endTime`) is
unchanged, no event (in particular no repeated `complete`) is emitted,
and no persistence write is attempted. -/
theorem C9_stop_idempotent (s : MonitorState) (t1 t2 : ℕ) (ok1 ok2 : Bool) :
    stop (stop s t1 ok1).state t2 ok2
      = { state := (stop s t1 ok1).state, events := [],
          persistAttempted := false, threw := false }
    ∧ (s.isRunning = false →
        stop s t1 ok1
          = { state := s, events := [], persistAttempted := false, threw := false }) :=
  ⟨stop_not_running _ t2 ok2 (isRunning_stop_state s t1 ok1),
   fun h => stop_not_running s t1 ok1 h⟩

/-- C9 witness: idempotence at a concrete running session. -/
theorem C9_stop_idempotent_witness :
    stop (stop sRunEx 1 true).state 2 true
      = { state := (stop sRunEx 1 true).state, events := [],
          persistAttempted := false, threw := false }
    ∧ (sRunEx.isRunning = false →
        stop sRunEx 1 true
          = { state := sRunEx, events := [], persistAttempted := false,
              threw := false }) :=
  C9_stop_idempotent sRunEx 1 2 true true

end Monitor
